import Mathlib

/-!
Verification development for the Guardian distributed rate limiter
(guardian-core/src/lib.rs and guardian-service/src/main.rs).

Modelling conventions:
- `SystemTime` is modelled as a `Nat` of milliseconds since an arbitrary
  epoch.  `Duration::as_secs` of an elapsed span of `e` milliseconds is
  `e / 1000` and `Duration::subsec_millis` is `e % 1000` (the source only
  ever inspects elapsed durations at millisecond resolution).
  `now.duration_since(last)` succeeds exactly when `last ≤ now`.
- `u64` counters are modelled as `Nat`.  The source never subtracts below
  zero (every subtraction is guarded by a comparison), so `Nat`
  subtraction agrees with the `u64` arithmetic on the guarded paths.
- Rust's in-place mutation through `Arc`/atomics becomes explicit state
  passing; each operation takes the wall-clock instant `now` at which it
  runs as an explicit argument (the source reads `SystemTime::now()`
  ambiently).  A single operation's internal clock reads collapse to the
  one instant.
- The CAS loops (`compare_exchange` on the token counters) are modelled
  sequentially: in a single-threaded execution the exchange succeeds on
  the first attempt with the value just loaded, which is the behaviour
  the sequential claims quantify over.
- Hash maps become association lists; `insert` replaces the binding for
  the key, `entry(..).or_insert_with(..)` inserts only when absent.
-/

namespace Guardian

/-- Error enum `RateLimitError`, guardian-core/src/lib.rs lines 16-24. -/
inductive RateLimitError where
  | LimitExceeded (msg : String)
  | StorageError (msg : String)
  | ConfigError (msg : String)
deriving Repr, DecidableEq

/-- Result enum `LimitResult`, guardian-core/src/lib.rs lines 308-312.
The `retry_after` duration is carried in milliseconds. -/
inductive LimitResult where
  | Allowed
  | Denied (retry_after_ms : Nat)
deriving Repr, DecidableEq

/-- `TokenBucketConfig`, guardian-core/src/lib.rs lines 30-35.  The
`refill_interval` field is never read by any code path the claims touch,
so it is omitted from the model. -/
structure TokenBucketConfig where
  capacity : Nat
  refill_rate : Nat
deriving Repr, DecidableEq

/-- `TokenBucket`, guardian-core/src/lib.rs lines 47-52.  `tokens` is the
atomic counter, `last_refill` the lock-guarded instant (milliseconds). -/
structure TokenBucket where
  tokens : Nat
  capacity : Nat
  refill_rate : Nat
  last_refill : Nat
deriving Repr, DecidableEq

/-- `TokenBucket::new`, lines 55-62: starts full, `last_refill` = creation
instant. -/
def TokenBucket.new (config : TokenBucketConfig) (now : Nat) : TokenBucket :=
  { tokens := config.capacity
    capacity := config.capacity
    refill_rate := config.refill_rate
    last_refill := now }

/-- `TokenBucket::refill`, lines 87-102.  When `now.duration_since(last)`
is `Ok(elapsed)` the source computes
`elapsed.as_secs() * refill_rate + elapsed.subsec_millis() * refill_rate / 1000`
and, only when that is positive, stores `min(tokens + to_add, capacity)`
and updates `last_refill`.  A negative elapsed span (`duration_since`
returning `Err`) leaves the bucket untouched. -/
def TokenBucket.refill (b : TokenBucket) (now : Nat) : TokenBucket :=
  if b.last_refill ≤ now then
    let elapsed := now - b.last_refill
    let tokens_to_add :=
      elapsed / 1000 * b.refill_rate + elapsed % 1000 * b.refill_rate / 1000
    if 0 < tokens_to_add then
      { b with
        tokens := min (b.tokens + tokens_to_add) b.capacity
        last_refill := now }
    else b
  else b

/-- `TokenBucket::try_consume`, lines 64-85: refill first, then the CAS
loop; `current < cost` yields `Err(LimitExceeded)` without mutation,
otherwise the counter drops by `cost`. -/
def TokenBucket.try_consume (b : TokenBucket) (now : Nat) (cost : Nat) :
    Except RateLimitError Unit × TokenBucket :=
  let b1 := b.refill now
  if b1.tokens < cost then
    (Except.error (RateLimitError.LimitExceeded ("Insufficient tokens")), b1)
  else
    (Except.ok (), { b1 with tokens := b1.tokens - cost })

/-- `TokenBucket::available_tokens`, lines 104-107: refill, then load. -/
def TokenBucket.available_tokens (b : TokenBucket) (now : Nat) :
    Nat × TokenBucket :=
  let b1 := b.refill now
  (b1.tokens, b1)

/-- One public operation on a `TokenBucket`, used to quantify over
arbitrary operation histories. -/
inductive BucketOp where
  | refillOp (now : Nat)
  | tryConsume (now : Nat) (cost : Nat)
  | availableTokens (now : Nat)
deriving Repr, DecidableEq

/-- State transition of a bucket under one operation. -/
def TokenBucket.applyOp (b : TokenBucket) : BucketOp → TokenBucket
  | BucketOp.refillOp now => b.refill now
  | BucketOp.tryConsume now cost => (b.try_consume now cost).2
  | BucketOp.availableTokens now => (b.available_tokens now).2

/-- Bucket state reached from a fresh bucket after a history of
operations. -/
def TokenBucket.runOps (config : TokenBucketConfig) (t0 : Nat)
    (ops : List BucketOp) : TokenBucket :=
  ops.foldl TokenBucket.applyOp (TokenBucket.new config t0)

/-- Replace the binding for `k` in an association list, appending it when
absent — the model of `HashMap::insert` / writing through a map entry. -/
def updateKey {β : Type} (k : String) (b : β) :
    List (String × β) → List (String × β)
  | [] => [(k, b)]
  | (k0, b0) :: rest =>
      if k0 = k then (k, b) :: rest else (k0, b0) :: updateKey k b rest

/-- The `StorageBackend` trait (guardian-core/src/lib.rs lines 114-119),
restricted to `take_token`, over an explicit state type.  Arguments:
state, key, cost, wall-clock instant of the call. -/
structure Backend (σ : Type) where
  take_token : σ → String → Nat → Nat → Except RateLimitError Bool × σ

/-- `MemoryBackend`, guardian-core/src/lib.rs lines 125-128: a map from
client key to bucket plus the shared bucket config. -/
structure MemoryBackend where
  buckets : List (String × TokenBucket)
  config : TokenBucketConfig
deriving Repr, DecidableEq

/-- `MemoryBackend::get_or_create_bucket`, lines 138-150: return the
existing bucket or lazily insert a fresh full one. -/
def MemoryBackend.get_or_create_bucket (m : MemoryBackend) (key : String)
    (now : Nat) : TokenBucket × MemoryBackend :=
  match List.lookup key m.buckets with
  | some b => (b, m)
  | none =>
      let b := TokenBucket.new m.config now
      (b, { m with buckets := updateKey key b m.buckets })

/-- `MemoryBackend::take_token`, lines 155-162: consume from the per-key
bucket, mapping the bucket's `LimitExceeded` to `Ok(false)` and passing
other errors through.  The consumed bucket is written back (in Rust the
`Arc`-shared bucket mutates in place). -/
def MemoryBackend.take_token (m : MemoryBackend) (key : String) (cost : Nat)
    (now : Nat) : Except RateLimitError Bool × MemoryBackend :=
  let (b, m1) := m.get_or_create_bucket key now
  match b.try_consume now cost with
  | (Except.ok _, b1) =>
      (Except.ok true, { m1 with buckets := updateKey key b1 m1.buckets })
  | (Except.error (RateLimitError.LimitExceeded _), b1) =>
      (Except.ok false, { m1 with buckets := updateKey key b1 m1.buckets })
  | (Except.error e, b1) =>
      (Except.error e, { m1 with buckets := updateKey key b1 m1.buckets })

/-- The `StorageBackend` instance of `MemoryBackend` (lines 153-174). -/
def memBackend : Backend MemoryBackend :=
  { take_token := MemoryBackend.take_token }

/-- `LocalBatch`, guardian-core/src/lib.rs lines 186-189 (instants in
milliseconds). -/
structure LocalBatch where
  available : Nat
  reserved_until : Nat
deriving Repr, DecidableEq

/-- `BatchingBackend`, lines 180-184, over an inner backend state `σ`. -/
structure BatchingBackend (σ : Type) where
  backend : σ
  local_cache : List (String × LocalBatch)
  batch_size : Nat

/-- The loop body of `BatchingBackend::reserve_batch`, lines 200-208:
`batch_size` sequential unit takes against the inner backend; the first
`Ok(false)` becomes `Err(LimitExceeded(key))`, the first `Err` is
propagated. -/
def reserveLoop {σ : Type} (B : Backend σ) (key : String) (now : Nat) :
    Nat → σ → Except RateLimitError Unit × σ
  | 0, s => (Except.ok (), s)
  | Nat.succ n, s =>
      match B.take_token s key 1 now with
      | (Except.ok true, s1) => reserveLoop B key now n s1
      | (Except.ok false, s1) =>
          (Except.error (RateLimitError.LimitExceeded key), s1)
      | (Except.error e, s1) => (Except.error e, s1)

/-- `BatchingBackend::reserve_batch`, lines 200-208. -/
def BatchingBackend.reserve_batch {σ : Type} (B : Backend σ)
    (bb : BatchingBackend σ) (key : String) (now : Nat) :
    Except RateLimitError Unit × BatchingBackend σ :=
  match reserveLoop B key now bb.batch_size bb.backend with
  | (r, s1) => (r, { bb with backend := s1 })

/-- Model of `HashMap::entry(key).or_insert_with(default)`: returns the
entry (existing or the freshly inserted default) and the resulting map. -/
def entryOrInsert (cache : List (String × LocalBatch)) (key : String)
    (dflt : LocalBatch) : LocalBatch × List (String × LocalBatch) :=
  match List.lookup key cache with
  | some batch => (batch, cache)
  | none => (dflt, updateKey key dflt cache)

/-- `BatchingBackend::take_token`, lines 213-250.  Fast path: if a cached
batch holds at least `cost`, decrement it and admit (the CAS succeeds in
the sequential model).  Otherwise `reserve_batch` runs and its error (if
any) is propagated by the `?` operator; on success the entry for the key
is obtained with `or_insert_with` (a fresh batch of `batch_size` tokens
only when no entry exists) and the cost is consumed from whatever that
entry holds. -/
def BatchingBackend.take_token {σ : Type} (B : Backend σ)
    (bb : BatchingBackend σ) (key : String) (cost : Nat) (now : Nat) :
    Except RateLimitError Bool × BatchingBackend σ :=
  let fast : Option (BatchingBackend σ) :=
    match List.lookup key bb.local_cache with
    | some batch =>
        if batch.available ≥ cost then
          some { bb with
            local_cache :=
              updateKey key { batch with available := batch.available - cost }
                bb.local_cache }
        else none
    | none => none
  match fast with
  | some bb1 => (Except.ok true, bb1)
  | none =>
      match bb.reserve_batch B key now with
      | (Except.error e, bb1) => (Except.error e, bb1)
      | (Except.ok _, bb1) =>
          let pair := entryOrInsert bb1.local_cache key
            { available := bb1.batch_size, reserved_until := now + 60000 }
          let batch := pair.1
          if batch.available ≥ cost then
            (Except.ok true,
              { bb1 with
                local_cache :=
                  updateKey key
                    { batch with available := batch.available - cost }
                    pair.2 })
          else
            (Except.ok false, { bb1 with local_cache := pair.2 })

/-- `RateLimiter::check_limit`, guardian-core/src/lib.rs lines 282-301:
`Ok(true)` becomes `Allowed`, `Ok(false)` becomes `Denied` with a fixed
one-second retry hint, and an error becomes `Allowed` under `fail_open`
or is propagated otherwise. -/
def RateLimiter.check_limit {σ : Type} (B : Backend σ) (fail_open : Bool)
    (s : σ) (client_id : String) (cost : Nat) (now : Nat) :
    Except RateLimitError LimitResult × σ :=
  match B.take_token s client_id cost now with
  | (Except.ok true, s1) => (Except.ok LimitResult.Allowed, s1)
  | (Except.ok false, s1) => (Except.ok (LimitResult.Denied 1000), s1)
  | (Except.error e, s1) =>
      if fail_open then (Except.ok LimitResult.Allowed, s1)
      else (Except.error e, s1)

/-- Wire request of the `CheckLimit` RPC (guardian-service/src/main.rs). -/
structure CheckLimitRequest where
  client_id : String
  cost : Nat
deriving Repr, DecidableEq

/-- Decision part of `GuardianService::check_limit`,
guardian-service/src/main.rs lines 39-75: the handler takes
`client_id = req.client_id` verbatim and `cost = req.cost.max(1)` and
calls the limiter facade with them.  (The translation of the resulting
decision into a `CheckLimitResponse` carries no further state and is not
modelled.) -/
def GuardianService.check_limit {σ : Type} (B : Backend σ) (fail_open : Bool)
    (s : σ) (req : CheckLimitRequest) (now : Nat) :
    Except RateLimitError LimitResult × σ :=
  RateLimiter.check_limit B fail_open s req.client_id (max req.cost 1) now

/-- Client-identifier selection of `RateLimitInterceptor::intercept`,
guardian-service/src/main.rs lines 159-176: the value of the `client-id`
metadata entry when present (even if empty), the literal `anonymous` only
when the entry is absent. -/
def RateLimitInterceptor.client_id (meta : Option String) : String :=
  match meta with
  | some v => v
  | none => ("anonymous")

/-- Wire request of the `ResetLimit` RPC. -/
structure ResetLimitRequest where
  client_id : String
deriving Repr, DecidableEq

/-- Wire response of the `ResetLimit` RPC. -/
structure ResetLimitResponse where
  success : Bool
  message : String
deriving Repr, DecidableEq

/-- `GuardianService::reset_limit`, guardian-service/src/main.rs lines
98-110: the handler discards the request (`let _req = ...`), performs no
call on the limiter it holds (state `s` flows through untouched), and
unconditionally answers success. -/
def GuardianService.reset_limit {σ : Type} (s : σ)
    (_req : ResetLimitRequest) : ResetLimitResponse × σ :=
  ({ success := true, message := ("Rate limit reset successfully") }, s)

/-- A storage backend whose `take_token` fails on every call, the shape
of backend used by the spec's fail-open/fail-closed scenarios (a store
that is unreachable). -/
def errorBackend : Backend Unit :=
  { take_token := fun s _ _ _ =>
      (Except.error (RateLimitError.StorageError ("backend down")), s) }

/-! Helper lemmas about the bucket operations. -/

theorem refill_capacity (b : TokenBucket) (now : Nat) :
    (b.refill now).capacity = b.capacity := by
  unfold TokenBucket.refill
  by_cases h1 : b.last_refill ≤ now
  · simp only [if_pos h1]
    by_cases h2 : 0 < (now - b.last_refill) / 1000 * b.refill_rate
        + (now - b.last_refill) % 1000 * b.refill_rate / 1000
    · simp [h2]
    · simp [h2]
  · simp [h1]

theorem refill_rate_const (b : TokenBucket) (now : Nat) :
    (b.refill now).refill_rate = b.refill_rate := by
  unfold TokenBucket.refill
  by_cases h1 : b.last_refill ≤ now
  · simp only [if_pos h1]
    by_cases h2 : 0 < (now - b.last_refill) / 1000 * b.refill_rate
        + (now - b.last_refill) % 1000 * b.refill_rate / 1000
    · simp [h2]
    · simp [h2]
  · simp [h1]

theorem refill_tokens_le (b : TokenBucket) (now : Nat)
    (h : b.tokens ≤ b.capacity) : (b.refill now).tokens ≤ b.capacity := by
  unfold TokenBucket.refill
  by_cases h1 : b.last_refill ≤ now
  · simp only [if_pos h1]
    by_cases h2 : 0 < (now - b.last_refill) / 1000 * b.refill_rate
        + (now - b.last_refill) % 1000 * b.refill_rate / 1000
    · simp only [h2, if_pos]
      exact Nat.min_le_right _ _
    · simp only [h2, if_neg]
      exact h
  · simp only [if_neg h1]
    exact h

theorem try_consume_capacity (b : TokenBucket) (now cost : Nat) :
    (b.try_consume now cost).2.capacity = b.capacity := by
  unfold TokenBucket.try_consume
  by_cases h : (b.refill now).tokens < cost
  · simp only [h, if_pos]
    exact refill_capacity b now
  · simp only [h, if_neg]
    exact refill_capacity b now

theorem try_consume_tokens_le (b : TokenBucket) (now cost : Nat)
    (h : b.tokens ≤ b.capacity) :
    (b.try_consume now cost).2.tokens ≤ b.capacity := by
  unfold TokenBucket.try_consume
  by_cases hlt : (b.refill now).tokens < cost
  · simp only [hlt, if_pos]
    exact refill_tokens_le b now h
  · simp only [hlt, if_neg]
    exact le_trans (Nat.sub_le _ _) (refill_tokens_le b now h)

theorem applyOp_capacity (b : TokenBucket) (op : BucketOp) :
    (b.applyOp op).capacity = b.capacity := by
  cases op with
  | refillOp now => exact refill_capacity b now
  | tryConsume now cost => exact try_consume_capacity b now cost
  | availableTokens now => exact refill_capacity b now

theorem applyOp_tokens_le (b : TokenBucket) (op : BucketOp)
    (h : b.tokens ≤ b.capacity) : (b.applyOp op).tokens ≤ b.capacity := by
  cases op with
  | refillOp now => exact refill_tokens_le b now h
  | tryConsume now cost => exact try_consume_tokens_le b now cost h
  | availableTokens now => exact refill_tokens_le b now h

theorem foldl_applyOp_inv (ops : List BucketOp) (b : TokenBucket)
    (h : b.tokens ≤ b.capacity) :
    (ops.foldl TokenBucket.applyOp b).tokens ≤ b.capacity ∧
    (ops.foldl TokenBucket.applyOp b).capacity = b.capacity := by
  induction ops generalizing b with
  | nil => exact ⟨h, rfl⟩
  | cons op rest ih =>
      simp only [List.foldl_cons]
      have hop : (b.applyOp op).tokens ≤ (b.applyOp op).capacity := by
        rw [applyOp_capacity]
        exact applyOp_tokens_le b op h
      obtain ⟨h1, h2⟩ := ih (b.applyOp op) hop
      rw [applyOp_capacity] at h1 h2
      exact ⟨h1, h2⟩

theorem runOps_tokens_le (config : TokenBucketConfig) (t0 : Nat)
    (ops : List BucketOp) :
    (TokenBucket.runOps config t0 ops).tokens ≤ config.capacity := by
  have h := foldl_applyOp_inv ops (TokenBucket.new config t0) (le_refl _)
  exact h.1

theorem runOps_capacity (config : TokenBucketConfig) (t0 : Nat)
    (ops : List BucketOp) :
    (TokenBucket.runOps config t0 ops).capacity = config.capacity := by
  have h := foldl_applyOp_inv ops (TokenBucket.new config t0) (le_refl _)
  exact h.2

/-! Claim theorems. -/

/-- C3: for every refill with non-negative elapsed time, the resulting
token count is `min(capacity, tokens + to_add)` where
`to_add = secs * refill_rate + millis * refill_rate / 1000` is the
spec's `floor(elapsed_seconds * refill_rate)` at 1 ms resolution
(`secs = elapsed / 1000`, `millis = elapsed % 1000`). -/
theorem refill_matches_floor_formula (b : TokenBucket) (now : Nat)
    (h1 : b.last_refill ≤ now) (h2 : b.tokens ≤ b.capacity) :
    (b.refill now).tokens =
      min b.capacity
        (b.tokens + ((now - b.last_refill) / 1000 * b.refill_rate
          + (now - b.last_refill) % 1000 * b.refill_rate / 1000)) := by
  unfold TokenBucket.refill
  simp only [if_pos h1]
  by_cases h3 : 0 < (now - b.last_refill) / 1000 * b.refill_rate
      + (now - b.last_refill) % 1000 * b.refill_rate / 1000
  · simp only [h3, if_pos]
    exact Nat.min_comm _ _
  · rw [if_neg h3]
    omega

/-- Witness for C3: a bucket with 5 of 10 tokens and rate 3, refilled
1500 ms later, ends at `min 10 (5 + (1 * 3 + 500 * 3 / 1000)) = 9`. -/
theorem refill_matches_floor_formula_witness :
    (TokenBucket.last_refill ⟨5, 10, 3, 0⟩ ≤ 1500
      ∧ TokenBucket.tokens ⟨5, 10, 3, 0⟩ ≤ TokenBucket.capacity ⟨5, 10, 3, 0⟩)
    ∧ (TokenBucket.refill ⟨5, 10, 3, 0⟩ 1500).tokens =
      min (TokenBucket.capacity ⟨5, 10, 3, 0⟩)
        (TokenBucket.tokens ⟨5, 10, 3, 0⟩
          + ((1500 - TokenBucket.last_refill ⟨5, 10, 3, 0⟩) / 1000
               * TokenBucket.refill_rate ⟨5, 10, 3, 0⟩
             + (1500 - TokenBucket.last_refill ⟨5, 10, 3, 0⟩) % 1000
               * TokenBucket.refill_rate ⟨5, 10, 3, 0⟩ / 1000)) :=
  ⟨⟨by decide, by decide⟩,
    refill_matches_floor_formula ⟨5, 10, 3, 0⟩ 1500 (by decide) (by decide)⟩

/-- C4: from the initial full bucket, every history of public operations
(refill, try_consume with any cost, available_tokens) keeps the token
count within `0 ≤ tokens ≤ capacity` and leaves the capacity itself
unchanged.  Non-negativity is inherent: the `u64` counter is modelled by
`Nat` and the source guards every subtraction by `current < cost`. -/
theorem bucket_invariant_all_histories (config : TokenBucketConfig)
    (t0 : Nat) (ops : List BucketOp) :
    (TokenBucket.runOps config t0 ops).tokens ≤ config.capacity ∧
    (TokenBucket.runOps config t0 ops).capacity = config.capacity :=
  ⟨runOps_tokens_le config t0 ops, runOps_capacity config t0 ops⟩

/-- C6: any cost strictly above the capacity is refused with
`InsufficientTokens` in every reachable bucket state, whatever the prior
operation history and the instant of the attempt. -/
theorem oversize_cost_always_denied (config : TokenBucketConfig)
    (t0 : Nat) (ops : List BucketOp) (now cost : Nat)
    (h : config.capacity < cost) :
    ((TokenBucket.runOps config t0 ops).try_consume now cost).1 =
      Except.error (RateLimitError.LimitExceeded ("Insufficient tokens")) := by
  have htok := runOps_tokens_le config t0 ops
  have hcap := runOps_capacity config t0 ops
  have hle : (TokenBucket.runOps config t0 ops).tokens
      ≤ (TokenBucket.runOps config t0 ops).capacity := by
    rw [hcap]; exact htok
  have hre := refill_tokens_le (TokenBucket.runOps config t0 ops) now hle
  rw [hcap] at hre
  have hlt : ((TokenBucket.runOps config t0 ops).refill now).tokens < cost :=
    lt_of_le_of_lt hre h
  unfold TokenBucket.try_consume
  simp only [hlt, if_pos]

/-- Witness for C6: with capacity 10, a cost of 11 is refused even on
the fresh (full) bucket. -/
theorem oversize_cost_always_denied_witness :
    TokenBucketConfig.capacity ⟨10, 5⟩ < 11 ∧
    ((TokenBucket.runOps ⟨10, 5⟩ 0 []).try_consume 0 11).1 =
      Except.error (RateLimitError.LimitExceeded ("Insufficient tokens")) :=
  ⟨by decide, oversize_cost_always_denied ⟨10, 5⟩ 0 [] 0 11 (by decide)⟩

/-- C5: against a backend whose every `take_token` fails, `check_limit`
with `fail_open = true` answers `Allowed` on every call, and with
`fail_open = false` it propagates an error on every call (so it is never
`Allowed` and never `Denied`). -/
theorem fail_open_fail_closed {σ : Type} (B : Backend σ)
    (h : ∀ (s : σ) (k : String) (c t : Nat),
      ∃ e, (B.take_token s k c t).1 = Except.error e)
    (s : σ) (k : String) (c t : Nat) :
    (RateLimiter.check_limit B true s k c t).1 = Except.ok LimitResult.Allowed
    ∧ ∃ e, (RateLimiter.check_limit B false s k c t).1 = Except.error e := by
  obtain ⟨e, he⟩ := h s k c t
  rcases hq : B.take_token s k c t with ⟨r, s1⟩
  rw [hq] at he
  have hr : r = Except.error e := he
  subst hr
  unfold RateLimiter.check_limit
  rw [hq]
  exact ⟨rfl, e, rfl⟩

/-- Witness for C5: the concrete always-failing backend. -/
theorem fail_open_fail_closed_witness :
    (∀ (s : Unit) (k : String) (c t : Nat),
      ∃ e, (errorBackend.take_token s k c t).1 = Except.error e)
    ∧ ((RateLimiter.check_limit errorBackend true () ("u") 1 0).1 =
          Except.ok LimitResult.Allowed
        ∧ ∃ e, (RateLimiter.check_limit errorBackend false () ("u") 1 0).1 =
          Except.error e) :=
  ⟨fun _ _ _ _ => ⟨RateLimitError.StorageError ("backend down"), rfl⟩,
    fail_open_fail_closed errorBackend
      (fun _ _ _ _ => ⟨RateLimitError.StorageError ("backend down"), rfl⟩)
      () ("u") 1 0⟩

/-- C7 counterexample: the claim says `try_consume` with cost 0 does not
change the bucket's token count, but `try_consume` performs a refill
first: a drained bucket (0 of 10 tokens, rate 10, last refill at 0 ms)
checked with cost 0 at 1000 ms is admitted AND its token count moves
from 0 to 10. -/
theorem zero_cost_counterexample :
    (TokenBucket.try_consume ⟨0, 10, 10, 0⟩ 1000 0).1 = Except.ok ()
    ∧ TokenBucket.tokens ⟨0, 10, 10, 0⟩ = 0
    ∧ (TokenBucket.try_consume ⟨0, 10, 10, 0⟩ 1000 0).2.tokens = 10 :=
  ⟨rfl, rfl, rfl⟩

/-- C7 amended: `try_consume` with cost 0 always succeeds and consumes
nothing — the post-state is exactly the state after the refill that
every operation performs (so when the refill adds nothing, the token
count is unchanged). -/
theorem zero_cost_admitted_consumes_nothing (b : TokenBucket) (now : Nat) :
    (b.try_consume now 0).1 = Except.ok ()
    ∧ (b.try_consume now 0).2 = b.refill now := by
  have hmk : ∀ x : TokenBucket,
      { x with tokens := x.tokens - 0 } = x := by
    intro x
    cases x
    simp
  unfold TokenBucket.try_consume
  rw [if_neg (Nat.not_lt_zero _)]
  exact ⟨rfl, hmk _⟩

/-- C8 counterexample: the claim says every refill with non-negative
elapsed time sets `last_refill := now`, but when the elapsed time is too
small to add a token the source leaves `last_refill` alone: a bucket
with rate 1 token/s refilled 500 ms after `last_refill = 0` keeps
`last_refill = 0`, not 500. -/
theorem refill_last_refill_counterexample :
    TokenBucket.last_refill ⟨5, 10, 1, 0⟩ ≤ 500
    ∧ (TokenBucket.refill ⟨5, 10, 1, 0⟩ 500).last_refill ≠ 500 := by
  decide

/-- C8 amended: `last_refill` is advanced to `now` exactly when the
elapsed time is non-negative AND yields at least one token; when the
computed `tokens_to_add` is zero the whole refill is a no-op (so the
fractional elapsed time keeps accumulating), and a negative elapsed
time (clock went backwards) is also a no-op. -/
theorem refill_last_refill_update (b : TokenBucket) (now : Nat) :
    (b.last_refill ≤ now →
      0 < (now - b.last_refill) / 1000 * b.refill_rate
          + (now - b.last_refill) % 1000 * b.refill_rate / 1000 →
      (b.refill now).last_refill = now)
    ∧ (b.last_refill ≤ now →
      (now - b.last_refill) / 1000 * b.refill_rate
          + (now - b.last_refill) % 1000 * b.refill_rate / 1000 = 0 →
      b.refill now = b)
    ∧ (now < b.last_refill → b.refill now = b) := by
  refine ⟨?_, ?_, ?_⟩
  · intro h1 h2
    unfold TokenBucket.refill
    simp only [if_pos h1]
    rw [if_pos h2]
  · intro h1 h2
    unfold TokenBucket.refill
    simp only [if_pos h1]
    rw [if_neg (by omega)]
  · intro h
    unfold TokenBucket.refill
    rw [if_neg (by omega)]

/-- Witness for C8's amended statement, one concrete instance per
conjunct: rate 1, elapsed 1500 ms advances `last_refill`; elapsed 500 ms
is a no-op; a backwards clock (now 2 before last_refill 3) is a no-op. -/
theorem refill_last_refill_update_witness :
    (TokenBucket.refill ⟨5, 10, 1, 0⟩ 1500).last_refill = 1500
    ∧ TokenBucket.refill ⟨5, 10, 1, 0⟩ 500 = ⟨5, 10, 1, 0⟩
    ∧ TokenBucket.refill ⟨5, 10, 1, 3⟩ 2 = ⟨5, 10, 1, 3⟩ :=
  ⟨(refill_last_refill_update ⟨5, 10, 1, 0⟩ 1500).1 (by decide) (by decide),
    (refill_last_refill_update ⟨5, 10, 1, 0⟩ 500).2.1 (by decide) (by decide),
    (refill_last_refill_update ⟨5, 10, 1, 3⟩ 2).2.2 (by decide)⟩

/-- C1: the batching wrapper on a cache miss converts an underlying
denial into an error.  Concretely: batch size 1 over a `MemoryBackend`
whose buckets have capacity 0 (every unit take is `Ok(false)`), empty
local cache.  `reserve_batch` turns the `Ok(false)` into
`Err(LimitExceeded(key))` and `take_token` propagates it with `?`, so
the wrapper answers an error rather than the `Ok(false)` the claim (and
the spec's "a denial is NOT an error") requires. -/
theorem batching_denial_becomes_error :
    (BatchingBackend.take_token memBackend
        ⟨⟨[], ⟨0, 0⟩⟩, [], 1⟩ ("k") 1 0).1 =
      Except.error (RateLimitError.LimitExceeded ("k"))
    ∧ (memBackend.take_token ⟨[], ⟨0, 0⟩⟩ ("k") 1 0).1 = Except.ok false :=
  ⟨rfl, rfl⟩

/-- C2: after a successful reservation the wrapper uses
`entry(key).or_insert_with(..)`, which does NOT update an existing
(drained) `LocalBatch`.  Concretely: batch size 2 over a full
`MemoryBackend` bucket of capacity 100 (rate 0), local cache already
holding the key with `available = 0`.  The reservation succeeds and
drains 2 tokens from the inner backend (100 → 98), yet the cached entry
stays at `available = 0` and the take is denied, where the claim (and
spec step 3) requires `available = N = 2` before consuming, hence an
admit with `available = 1`. -/
theorem batching_or_insert_keeps_drained_batch :
    (BatchingBackend.take_token memBackend
        ⟨⟨[], ⟨100, 0⟩⟩, [(("k"), ⟨0, 0⟩)], 2⟩ ("k") 1 0).1 = Except.ok false
    ∧ List.lookup ("k")
        (BatchingBackend.take_token memBackend
          ⟨⟨[], ⟨100, 0⟩⟩, [(("k"), ⟨0, 0⟩)], 2⟩ ("k") 1 0).2.local_cache =
        some ⟨0, 0⟩
    ∧ List.lookup ("k")
        (BatchingBackend.take_token memBackend
          ⟨⟨[], ⟨100, 0⟩⟩, [(("k"), ⟨0, 0⟩)], 2⟩ ("k") 1 0).2.backend.buckets =
        some ⟨98, 100, 0, 0⟩ :=
  ⟨rfl, rfl, rfl⟩

/-- Helper: replacing the binding of one key leaves lookups of any other
key unchanged. -/
theorem lookup_updateKey_ne {β : Type} (k k0 : String) (b : β)
    (l : List (String × β)) (h : k0 ≠ k) :
    List.lookup k0 (updateKey k b l) = List.lookup k0 l := by
  have hbeq : (k0 == k) = false := beq_eq_false_iff_ne.mpr h
  induction l with
  | nil => simp [updateKey, List.lookup, hbeq]
  | cons hd tl ih =>
      rcases hd with ⟨k1, b1⟩
      by_cases hk : k1 = k
      · subst hk
        simp [updateKey, List.lookup, hbeq]
      · simp [updateKey, hk, List.lookup, ih]

/-- Helper: the decision component of `check_limit` only depends on the
decision component of the backend's `take_token`. -/
theorem check_limit_fst_congr {σ1 σ2 : Type} (B1 : Backend σ1)
    (B2 : Backend σ2) (fo : Bool) (s1 : σ1) (s2 : σ2) (k : String)
    (c t : Nat)
    (h : (B1.take_token s1 k c t).1 = (B2.take_token s2 k c t).1) :
    (RateLimiter.check_limit B1 fo s1 k c t).1 =
      (RateLimiter.check_limit B2 fo s2 k c t).1 := by
  unfold RateLimiter.check_limit
  rcases h1 : B1.take_token s1 k c t with ⟨r1, u1⟩
  rcases h2 : B2.take_token s2 k c t with ⟨r2, u2⟩
  rw [h1, h2] at h
  have hr : r1 = r2 := h
  subst hr
  rcases r1 with e | v
  · cases fo <;> rfl
  · cases v <;> rfl

/-- Helper: the decision component of `MemoryBackend::take_token` only
depends on the bucket looked up for the key and the shared config. -/
theorem memory_take_fst_congr (m1 m2 : MemoryBackend) (k : String)
    (c t : Nat)
    (hl : List.lookup k m1.buckets = List.lookup k m2.buckets)
    (hc : m1.config = m2.config) :
    (m1.take_token k c t).1 = (m2.take_token k c t).1 := by
  unfold MemoryBackend.take_token MemoryBackend.get_or_create_bucket
  rw [hl, hc]
  rcases hb : List.lookup k m2.buckets with _ | b0
  · dsimp only
    rcases htc : (TokenBucket.new m2.config t).try_consume t c with ⟨r, b1⟩
    rcases r with e | v
    · cases e <;> rfl
    · rfl
  · dsimp only
    rcases htc : b0.try_consume t c with ⟨r, b1⟩
    rcases r with e | v
    · cases e <;> rfl
    · rfl

/-- C9 counterexample: a `CheckLimit` request with empty `client_id` is
decided against the bucket keyed by the empty string, not against the
`anonymous` bucket.  With the empty-string bucket drained and the
`anonymous` bucket full (rate 0 so no refill interferes), the request is
Denied although the decision against the `anonymous` bucket is Allowed. -/
theorem empty_client_id_counterexample :
    (GuardianService.check_limit memBackend false
        ⟨[(("" : String), ⟨0, 10, 0, 0⟩), (("anonymous"), ⟨10, 10, 0, 0⟩)],
          ⟨10, 0⟩⟩ ⟨(""), 1⟩ 0).1 =
      Except.ok (LimitResult.Denied 1000)
    ∧ (RateLimiter.check_limit memBackend false
        ⟨[(("" : String), ⟨0, 10, 0, 0⟩), (("anonymous"), ⟨10, 10, 0, 0⟩)],
          ⟨10, 0⟩⟩ ("anonymous") 1 0).1 =
      Except.ok LimitResult.Allowed :=
  ⟨rfl, rfl⟩

/-- C9 amended: the service handler keys the decision by `client_id`
verbatim (an empty `client_id` is the empty-string bucket's key): the
decision for an empty `client_id` is unaffected by the state of the
`anonymous` bucket.  The literal `anonymous` is substituted only by the
interceptor's metadata lookup, and only when the `client-id` entry is
absent — a present (even empty) value is used as-is. -/
theorem empty_client_id_keyed_verbatim (bs : List (String × TokenBucket))
    (cfg : TokenBucketConfig) (banon : TokenBucket) (fo : Bool)
    (cost now : Nat) :
    (GuardianService.check_limit memBackend fo
        ⟨updateKey ("anonymous") banon bs, cfg⟩ ⟨(""), cost⟩ now).1 =
      (GuardianService.check_limit memBackend fo ⟨bs, cfg⟩
        ⟨(""), cost⟩ now).1
    ∧ RateLimitInterceptor.client_id none = ("anonymous")
    ∧ ∀ v : String, RateLimitInterceptor.client_id (some v) = v := by
  refine ⟨?_, rfl, fun v => rfl⟩
  have hne : ("" : String) ≠ ("anonymous") := by decide
  unfold GuardianService.check_limit
  apply check_limit_fst_congr
  apply memory_take_fst_congr
  · exact lookup_updateKey_ne _ _ _ _ hne
  · rfl

/-- C10: the `reset_limit` RPC handler answers success unconditionally
and performs no operation at all on the rate limiter: the limiter state
flows through untouched, so in particular every key's bucket is exactly
what it was before the call. -/
theorem reset_limit_unconditional_no_op (m : MemoryBackend)
    (req : ResetLimitRequest) (k : String) :
    (GuardianService.reset_limit m req).1.success = true
    ∧ (GuardianService.reset_limit m req).1.message =
        ("Rate limit reset successfully")
    ∧ (GuardianService.reset_limit m req).2 = m
    ∧ List.lookup k (GuardianService.reset_limit m req).2.buckets =
        List.lookup k m.buckets :=
  ⟨rfl, rfl, rfl, rfl⟩

end Guardian
